import Mathlib

/-!
Verification of the multi-chain position engine in `autonomous_trader.py`
(class `AutonomousTrader`) against its natural-language specification.

Prices, balances and gas costs are Python floats in the source; they are
modelled here as exact rationals (`ℚ`), which preserves every comparison
and branch of the source.  Raw token amounts, addresses and timestamps are
machine integers in the source and are modelled as `Nat`.  Network reads
and transaction outcomes are I/O in the source; each is passed in as an
explicit argument (the value the read produced, or a `Bool` telling
whether a submitted transaction confirmed), so every function below is a
pure, executable translation of the corresponding Python control flow.
-/

namespace Trader

/-- `GAS_RESERVE_ETH = 0.01` from `config/trading_config.py`. -/
def GAS_RESERVE_ETH : ℚ := 1 / 100

/-- `DEFAULT_TAKE_PROFIT = 1.02` from `config/trading_config.py`. -/
def DEFAULT_TAKE_PROFIT : ℚ := 102 / 100

/-- `DEFAULT_STOP_LOSS = 0.98` from `config/trading_config.py`. -/
def DEFAULT_STOP_LOSS : ℚ := 98 / 100

/-- `V4_SWAP_COMMAND = 0x10` from `config/trading_config.py`. -/
def V4_SWAP_COMMAND : Nat := 0x10

/-- `ACTION_SWAP_EXACT_IN_SINGLE = 6` from `config/trading_config.py`. -/
def ACTION_SWAP_EXACT_IN_SINGLE : Nat := 6

/-- `ACTION_SETTLE_ALL = 12` from `config/trading_config.py`. -/
def ACTION_SETTLE_ALL : Nat := 12

/-- `ACTION_TAKE_ALL = 15` from `config/trading_config.py`. -/
def ACTION_TAKE_ALL : Nat := 15

/-- `TESTNET_CHAINS = {84532, 421614, 11155111}` in `autonomous_trader.py`. -/
def TESTNET_CHAINS : List Nat := [84532, 421614, 11155111]

/-- `AutonomousTrader._check_gas_reserve` (lines 949-961): converts the wei
balance to ether and refuses (returns `false`) when it is strictly below
`GAS_RESERVE_ETH`. -/
def checkGasReserve (balanceWei : Nat) : Bool :=
  if (balanceWei : ℚ) / 10 ^ 18 < GAS_RESERVE_ETH then false else true

/-- On-chain allowance state read by `ensure_permit2_approval`: the ERC20
allowance granted to Permit2, and the Permit2 (amount, expiration) pair
granted to the UniversalRouter. -/
structure ApprovalState where
  erc20Allowance : Nat
  p2Amount : Nat
  p2Expiration : Nat
deriving DecidableEq

/-- Result of one `ensure_permit2_approval` call: the returned boolean,
the number of transactions signed and broadcast during the call, and the
allowance state after the call. -/
structure ApprovalResult where
  ok : Bool
  txCount : Nat
  state : ApprovalState
deriving DecidableEq

/-- Step 2 of `AutonomousTrader.ensure_permit2_approval` (lines 819-853):
if the Permit2 amount is below `2^128` or the expiration is within 3600
seconds of `now`, submit `Permit2.approve(token, router, 2^160-1,
now + 30*86400)`; a reverted or rejected transaction makes the whole call
return `false` with the state unchanged. -/
def permit2Step (s : ApprovalState) (now : Nat) (p2TxOk : Bool) (txs : Nat) :
    ApprovalResult :=
  if s.p2Amount < 2 ^ 128 ∨ s.p2Expiration < now + 3600 then
    if p2TxOk then
      { ok := true, txCount := txs + 1,
        state := { s with p2Amount := 2 ^ 160 - 1,
                          p2Expiration := now + 30 * 86400 } }
    else { ok := false, txCount := txs + 1, state := s }
  else { ok := true, txCount := txs, state := s }

/-- `AutonomousTrader.ensure_permit2_approval` (lines 777-853).  Step 1:
if the ERC20 allowance to Permit2 is below `2^128`, submit
`ERC20.approve(Permit2, 2^256-1)`; failure returns `false`.  Then step 2
(`permit2Step`).  `erc20TxOk` / `p2TxOk` are the confirmation outcomes of
the transactions, were they to be submitted. -/
def ensurePermit2Approval (s : ApprovalState) (now : Nat)
    (erc20TxOk p2TxOk : Bool) : ApprovalResult :=
  if s.erc20Allowance < 2 ^ 128 then
    if erc20TxOk then
      permit2Step { s with erc20Allowance := 2 ^ 256 - 1 } now p2TxOk 1
    else { ok := false, txCount := 1, state := s }
  else permit2Step s now p2TxOk 0

/-- The entry-time pre-approval in `AutonomousTrader._enter_token_with_strategy`
(line 1766): after recording the position it invokes
`ensure_permit2_approval` directly.  Nothing on this call path consults
the native balance or `_check_gas_reserve`, which is why this model takes
no balance argument at all. -/
def entryPreApproval (s : ApprovalState) (now : Nat)
    (erc20TxOk p2TxOk : Bool) : ApprovalResult :=
  ensurePermit2Approval s now erc20TxOk p2TxOk

/-- Result of `AutonomousTrader._execute_swap`: whether a confirmed
transaction hash was returned, the gas spent in ETH, and how many
transactions were signed and broadcast during the call (approvals plus
the swap itself). -/
structure ExecResult where
  txOk : Bool
  gasEth : ℚ
  txSubmitted : Nat
deriving DecidableEq

/-- `AutonomousTrader._execute_swap` (lines 963-1021): first the hard gas
reserve check (refuse with no transaction), then `ensure_permit2_approval`
(abort on failure), then the router transaction itself; a revert or RPC
error returns `(None, 0)`. -/
def executeSwap (nativeBalanceWei : Nat) (s : ApprovalState) (now : Nat)
    (erc20TxOk p2TxOk swapTxOk : Bool) (swapGasEth : ℚ) : ExecResult :=
  if checkGasReserve nativeBalanceWei = false then
    { txOk := false, gasEth := 0, txSubmitted := 0 }
  else
    let a := ensurePermit2Approval s now erc20TxOk p2TxOk
    if a.ok = false then { txOk := false, gasEth := 0, txSubmitted := a.txCount }
    else if swapTxOk then
      { txOk := true, gasEth := swapGasEth, txSubmitted := a.txCount + 1 }
    else { txOk := false, gasEth := 0, txSubmitted := a.txCount + 1 }

/-- One recorded lot, as stored in `self.positions` (entry price in USD,
amount in human units, and the absolute take-profit / stop-loss trigger
prices that are present on strategy-entered lots and absent on
loop-entered lots). -/
structure Position where
  entryPriceUsd : ℚ
  amount : ℚ
  takeProfitPrice : Option ℚ
  stopLossPrice : Option ℚ
deriving DecidableEq

/-- The exit tag printed and recorded for a closed lot. -/
inductive Tag where
  | tp
  | sl
deriving DecidableEq

/-- Outcome of one iteration of the per-lot TP/SL loop body for one lot:
`keep` (no trigger, or non-positive entry price), `skippedTP` (take-profit gas
gate deferred the exit), or `closed tag txOk` (the lot was appended to
`closed_indices` and will be popped; `txOk` records whether the sell swap
returned a transaction hash). -/
inductive ExitOutcome where
  | keep
  | skippedTP
  | closed (tag : Tag) (txOk : Bool)
deriving DecidableEq

/-- The body of the per-lot exit loop in `AutonomousTrader.run`
(lines 1892-2014): skip lots with non-positive entry price; compute
`is_tp` / `is_sl` from the stored absolute triggers when both are present,
otherwise from the ratio `current/entry` against the default TP/SL
ratios; no trigger keeps the lot; on a non-testnet chain a `TP` trigger
whose gross profit is at most the estimated exit gas is skipped
(`continue`); otherwise the lot is tagged (`TP` wins when both triggers
hold), the sell is attempted when the raw balance is positive, and the
lot index is appended to `closed_indices` regardless of the swap outcome.
`swapOk` is the outcome `_execute_swap` would report for the sell. -/
def evalExit (chainId : Nat) (takeProfitMul stopLossMul : ℚ)
    (currentPrice estGasUsd : ℚ) (pos : Position)
    (rawBal : Nat) (swapOk : Bool) : ExitOutcome :=
  if pos.entryPriceUsd ≤ 0 then .keep
  else
    let change := currentPrice / pos.entryPriceUsd
    let isTp : Bool :=
      match pos.takeProfitPrice, pos.stopLossPrice with
      | some tp, some _ => decide (tp ≤ currentPrice)
      | _, _ => decide (takeProfitMul ≤ change)
    let isSl : Bool :=
      match pos.takeProfitPrice, pos.stopLossPrice with
      | some _, some sl => decide (currentPrice ≤ sl)
      | _, _ => decide (change ≤ stopLossMul)
    if !(isTp || isSl) then .keep
    else
      let grossPnl := (currentPrice - pos.entryPriceUsd) * pos.amount
      if !(TESTNET_CHAINS.contains chainId) && isTp
          && decide (grossPnl ≤ estGasUsd) then .skippedTP
      else .closed (if isTp then .tp else .sl) (decide (0 < rawBal) && swapOk)

/-- Whether an outcome closes the lot (appends it to `closed_indices`). -/
def isClosed : ExitOutcome → Bool
  | .closed _ _ => true
  | _ => false

/-- Effect of `closed_indices` bookkeeping on one position list
(lines 2014-2017): every lot whose evaluation closed it is popped, the
rest survive in order.  Each lot is paired with its observed raw balance
and the outcome its sell swap would report. -/
def exitSurvivors (chainId : Nat) (takeProfitMul stopLossMul : ℚ)
    (currentPrice estGasUsd : ℚ)
    (ps : List (Position × Nat × Bool)) : List (Position × Nat × Bool) :=
  ps.filter (fun e =>
    !(isClosed (evalExit chainId takeProfitMul stopLossMul currentPrice
        estGasUsd e.1 e.2.1 e.2.2)))

/-- The tick-spacing lookup in `AutonomousTrader._encode_v4_swap`
(lines 892-895): `{100: 1, 500: 10, 3000: 60, 10000: 200}.get(fee, 60)`. -/
def tickSpacingMapEncode (feeTier : Nat) : Nat :=
  if feeTier = 100 then 1
  else if feeTier = 500 then 10
  else if feeTier = 3000 then 60
  else if feeTier = 10000 then 200
  else 60

/-- The tick-spacing lookup duplicated in `AutonomousTrader._get_v4_pool_price`
(lines 646-647): `{100: 1, 500: 10, 3000: 60, 10000: 200}.get(fee_tier, 60)`. -/
def tickSpacingMapPrice (feeTier : Nat) : Nat :=
  if feeTier = 100 then 1
  else if feeTier = 500 then 10
  else if feeTier = 3000 then 60
  else if feeTier = 10000 then 200
  else 60

/-- The tick-spacing lookup as the specification words it: the fixed map
100→1, 500→10, 3000→60, 10000→200 with 60 for any other tier.  Stated
from the spec so that the source lookups can be compared against it. -/
def specTickSpacing (feeTier : Nat) : Nat :=
  if feeTier = 100 then 1
  else if feeTier = 500 then 10
  else if feeTier = 3000 then 60
  else if feeTier = 10000 then 200
  else 60

/-- A V4 pool key as built by both the encoder and the pricing path:
(currency0, currency1, fee, tickSpacing, hooks), addresses as numbers. -/
structure PoolKey where
  currency0 : Nat
  currency1 : Nat
  fee : Nat
  tickSpacing : Nat
  hooks : Nat
deriving DecidableEq

/-- The pool-key construction of the V4 pricing branch of
`AutonomousTrader._get_v4_pool_price` (lines 645-664): sort the token and
quote addresses ascending into (currency0, currency1), remember which
side the token is (`token_is_0`), tick spacing from the fee-tier lookup,
hooks always the zero address.  The pool id is the keccak hash of the ABI
encoding of this key; the hash itself adds nothing to the claims and is
not modelled. -/
def pricingPoolKey (tokenAddr quoteAddr feeTier : Nat) : PoolKey × Bool :=
  let ts := tickSpacingMapPrice feeTier
  if tokenAddr < quoteAddr then
    (⟨tokenAddr, quoteAddr, feeTier, ts, 0⟩, true)
  else
    (⟨quoteAddr, tokenAddr, feeTier, ts, 0⟩, false)

/-- The output of `AutonomousTrader._encode_v4_swap` before the final
outer `encode(["bytes","bytes[]"], ...)` wrapping: the command byte, the
packed action bytes, and the three independently ABI-encoded action
payloads.  Each payload is modelled as its sequence of 32-byte ABI words
(one `Nat` per word). -/
structure V4SwapEncoding where
  commands : List Nat
  actions : List Nat
  swapParams : List Nat
  settleParams : List Nat
  takeParams : List Nat
deriving DecidableEq

/-- `AutonomousTrader._encode_v4_swap` (lines 857-945).  Currencies are
sorted ascending by numeric address value, `zero_for_one` is true when
the input token sorted first; tick spacing defaults to the fee-tier
lookup and hooks to the zero address when the optional arguments are
absent (no caller in the repository ever passes them).  `swapParams` is
the ABI encoding of `(PoolKey, zeroForOne, amountIn, amountOutMinimum,
hookData)` with empty `hookData`: five pool-key words, the bool word, the
two uint128 words, the offset word (288 = 9 * 32) to the dynamic bytes
tail, and the zero length word of the empty bytes.  `settleParams` and
`takeParams` encode `(currency, amount)` pairs. -/
def encodeV4Swap (tokenIn tokenOut amountIn minAmountOut feeTier : Nat)
    (tickSpacingArg : Option Nat) (hooksArg : Option Nat) : V4SwapEncoding :=
  let sorted :=
    if tokenIn < tokenOut then (tokenIn, tokenOut, true)
    else (tokenOut, tokenIn, false)
  let currency0 := sorted.1
  let currency1 := sorted.2.1
  let zeroForOne := sorted.2.2
  let tickSpacing :=
    match tickSpacingArg with
    | some ts => ts
    | none => tickSpacingMapEncode feeTier
  let hooksAddr :=
    match hooksArg with
    | some h => h
    | none => 0
  { commands := [V4_SWAP_COMMAND]
    actions := [ACTION_SWAP_EXACT_IN_SINGLE, ACTION_SETTLE_ALL, ACTION_TAKE_ALL]
    swapParams := [currency0, currency1, feeTier, tickSpacing, hooksAddr,
                   (if zeroForOne then 1 else 0), amountIn, minAmountOut,
                   288, 0]
    settleParams := [tokenIn, amountIn]
    takeParams := [tokenOut, minAmountOut] }

/-- ABI decoder for the documented `ExactInputSingleParams` layout
`((currency0, currency1, fee, tickSpacing, hooks), zeroForOne, amountIn,
amountOutMinimum, hookData)` with empty hook data: reads the ten words
back into the struct fields, checking the dynamic-bytes offset and
length. -/
def decodeExactInputSingleWords (ws : List Nat) :
    Option (PoolKey × Bool × Nat × Nat) :=
  match ws with
  | [c0, c1, fee, ts, hk, zf, ai, mo, off, len] =>
    if off = 288 ∧ len = 0 then
      some (⟨c0, c1, fee, ts, hk⟩, zf = 1, ai, mo)
    else none
  | _ => none

/-- ABI decoder for the documented `SETTLE_ALL` / `TAKE_ALL` payload
layout `(currency, amount)`: two static words. -/
def decodeCurrencyAmountWords (ws : List Nat) : Option (Nat × Nat) :=
  match ws with
  | [c, a] => some (c, a)
  | _ => none

/-- `10.0 ** z` for an integer decimal-difference exponent, as used in the
price rescaling of `_get_v4_pool_price` (line 688), expressed exactly. -/
def pow10z (z : Int) : ℚ :=
  if 0 ≤ z then (10 : ℚ) ^ z.toNat else 1 / (10 : ℚ) ^ (-z).toNat

/-- The tail of `AutonomousTrader._get_v4_pool_price` (lines 675-705).
`poolRead` is the outcome of the V3/V4 pool read: `none` when the pool
lookup failed (factory returned the zero address, missing pricing
context, or an RPC exception left `sqrt_price_x96`/`token_is_0` unset),
otherwise the pair `(sqrtPriceX96, token_is_0)`.  `ethPrice` is the value
`get_mainnet_price()` would return (`none` for a failed quote; a value of
`0` is falsy in the source and treated like a failure).  Quote decimals
are 6 for USDC/USDT and 18 otherwise, as in lines 566-569. -/
def getV4PoolPrice (poolRead : Option (Nat × Bool)) (quoteType : String)
    (tokenDecimals : Int) (ethPrice : Option ℚ) : Option ℚ :=
  let quoteDecimals : Int :=
    if quoteType = "USDC" ∨ quoteType = "USDT" then 6 else 18
  match poolRead with
  | none => none
  | some (sqrtPriceX96, tokenIs0) =>
    if sqrtPriceX96 = 0 then none
    else
      let priceRaw : ℚ := ((sqrtPriceX96 : ℚ) / 2 ^ 96) ^ 2
      let d0 : Int := if tokenIs0 then tokenDecimals else quoteDecimals
      let d1 : Int := if tokenIs0 then quoteDecimals else tokenDecimals
      let priceHuman : ℚ := priceRaw * pow10z (d0 - d1)
      let tokenPriceInQuote : Option ℚ :=
        if tokenIs0 then some priceHuman
        else if priceHuman ≤ 0 then none
        else some (1 / priceHuman)
      match tokenPriceInQuote with
      | none => none
      | some q =>
        if quoteType = "USDC" ∨ quoteType = "USDT" ∨ quoteType = "DAI" then
          some q
        else if quoteType = "WETH" ∨ quoteType = "ETH" then
          match ethPrice with
          | some p => if p = 0 then some q else some (q * p)
          | none => some q
        else some q

/-- One swap request handed to `_execute_swap`. -/
structure SwapCall where
  tokenIn : Nat
  tokenOut : Nat
  amountIn : Nat
  feeTier : Nat
deriving DecidableEq

/-- The sell-execution branch of the TP/SL exit in `AutonomousTrader.run`
(lines 1945-1983), as the sequence of swaps it submits.  With a zero raw
balance nothing is submitted.  Otherwise the sale amount is the raw
balance capped at the recorded position amount.  A WETH-quoted pool first
sells token→WETH at the pool's fee tier; if that swap returned a
transaction hash and the wallet's WETH balance read back positive, the
entire WETH balance is then swapped WETH→USDC at fee tier 500.  Any other
quote sells token→USDC directly. -/
def exitSellSwaps (quoteToken : String) (tokenAddr wethAddr usdcAddr : Nat)
    (rawBal posAmountRaw feeTier : Nat) (firstSwapOk : Bool)
    (wethRawAfter : Nat) : List SwapCall :=
  if rawBal = 0 then []
  else
    let sellAmount := min rawBal posAmountRaw
    if quoteToken = "WETH" then
      let first : SwapCall := ⟨tokenAddr, wethAddr, sellAmount, feeTier⟩
      if firstSwapOk && decide (0 < wethRawAfter) then
        [first, ⟨wethAddr, usdcAddr, wethRawAfter, 500⟩]
      else [first]
    else [⟨tokenAddr, usdcAddr, sellAmount, feeTier⟩]

/-- One recorded lot as read by `sell_all_to_usdc` (entry price and
amount). -/
structure LiqLot where
  entryPriceUsd : ℚ
  amount : ℚ
deriving DecidableEq

/-- One entry of `self.positions` as walked by `sell_all_to_usdc`,
together with the environment that entry meets: whether its key splits
into `chain:token`, whether the chain has a connected context, whether a
pool is known, the wallet balance, the liquidation swap outcomes and gas,
and the list of lots under the key. -/
structure LiqEntry where
  keyValid : Bool
  chainId : Nat
  hasCtx : Bool
  hasPool : Bool
  quoteIsWeth : Bool
  humanBal : ℚ
  rawBal : Nat
  feeTier : Nat
  firstSwapOk : Bool
  gas1Eth : ℚ
  wethRawAfter : Nat
  gas2Eth : ℚ
  lots : List LiqLot

/-- Total gas attributed to one entry by `sell_all_to_usdc`
(lines 1186-1218): the first liquidation swap's gas, plus — only on the
WETH-quote path, when the first swap confirmed and a positive WETH
balance was read back — the gas of the follow-up WETH→USDC swap. -/
def entryTotalGasEth (e : LiqEntry) : ℚ :=
  if e.quoteIsWeth then
    e.gas1Eth +
      (if e.firstSwapOk && decide (0 < e.wethRawAfter) then e.gas2Eth else 0)
  else e.gas1Eth

/-- The per-entry body of the `sell_all_to_usdc` loop (lines 1156-1240),
folded over the running `(total_pnl, trade_count)` accumulator: empty
lot lists, malformed keys, missing chain context, missing pool and dust
balances are skipped; otherwise the liquidation swaps run and every lot
under the key books `(eth_price - entry_price) * amount` minus its share
of the gas, incrementing the trade count. -/
def processLiqEntry (ethPrice : ℚ) (acc : ℚ × Nat) (e : LiqEntry) : ℚ × Nat :=
  if e.lots = [] then acc
  else if !e.keyValid then acc
  else if !e.hasCtx then acc
  else if !e.hasPool then acc
  else if e.humanBal < 1 / 1000000 then acc
  else
    let gasUsd := entryTotalGasEth e * ethPrice
    let n : ℚ := (e.lots.length : ℚ)
    e.lots.foldl
      (fun (a : ℚ × Nat) lot =>
        (a.1 + ((ethPrice - lot.entryPriceUsd) * lot.amount - gasUsd / n),
         a.2 + 1))
      acc

/-- The trader state `sell_all_to_usdc` leaves behind: the position map,
the accumulated realized P&L and trade count, whether the state file was
rewritten, and whether the sell-all flag file is still present. -/
structure LiquidationFinal where
  positions : List LiqEntry
  totalPnl : ℚ
  tradeCount : Nat
  stateSaved : Bool
  sellAllFlag : Bool

/-- `AutonomousTrader.sell_all_to_usdc` (lines 1151-1245): walk every
position entry through `processLiqEntry`, then unconditionally set
`self.positions = {}`, call `_save_state()` and remove the sell-all
flag. -/
def sellAllToUsdc (ethPrice : ℚ) (entries : List LiqEntry)
    (pnl0 : ℚ) (tradeCount0 : Nat) : LiquidationFinal :=
  let acc := entries.foldl (processLiqEntry ethPrice) (pnl0, tradeCount0)
  { positions := []
    totalPnl := acc.1
    tradeCount := acc.2
    stateSaved := true
    sellAllFlag := false }

/-- `pow10z` is positive for every exponent. -/
theorem pow10z_pos (z : Int) : 0 < pow10z z := by
  unfold pow10z
  split <;> positivity

/-- A call of `ensure_permit2_approval` that returns `true` leaves the
ERC20 allowance and the Permit2 amount at or above the `2^128`
high-water mark. -/
theorem ensurePermit2Approval_ok_state (s : ApprovalState) (now : Nat)
    (e p : Bool) (h : (ensurePermit2Approval s now e p).ok = true) :
    2 ^ 128 ≤ (ensurePermit2Approval s now e p).state.erc20Allowance ∧
    2 ^ 128 ≤ (ensurePermit2Approval s now e p).state.p2Amount := by
  revert h
  unfold ensurePermit2Approval permit2Step
  split
  · split
    · split
      · split
        · intro _
          exact ⟨by norm_num, by norm_num⟩
        · intro h
          simp at h
      · rename_i hcond
        push_neg at hcond
        intro _
        exact ⟨by norm_num, hcond.1⟩
    · intro h
      simp at h
  · rename_i hallow
    split
    · split
      · intro _
        exact ⟨Nat.le_of_not_lt hallow, by norm_num⟩
      · intro h
        simp at h
    · rename_i hcond
      push_neg at hcond
      intro _
      exact ⟨Nat.le_of_not_lt hallow, hcond.1⟩

/-- Claim C1 (counterexample): a lot whose stop-loss trigger fires and
whose sell swap fails (`swapOk = false`, modelling a revert, RPC error
or the zero-balance non-submission — here the raw balance is positive
and the swap reports failure) is still closed and removed from the
position list, contradicting the claim that a failed swap leaves the
lot open.  Chain id 1 (Ethereum mainnet), entry price 2, amount 10,
trigger prices TP 3 / SL 1, current price 1. -/
theorem c1_failed_swap_still_removes_lot :
    evalExit 1 DEFAULT_TAKE_PROFIT DEFAULT_STOP_LOSS 1 0
        ⟨2, 10, some 3, some 1⟩ 5 false = .closed .sl false ∧
    exitSurvivors 1 DEFAULT_TAKE_PROFIT DEFAULT_STOP_LOSS 1 0
        [(⟨2, 10, some 3, some 1⟩, 5, false)] = [] := by
  constructor
  · decide
  · decide

/-- Claim C1 (amended): in the TP/SL exit evaluation, whether a lot is
closed and removed from its position list is decided entirely by its
triggers and the take-profit gas gate — the sell swap's outcome never
changes the removal decision, so a lot whose trigger fires and passes
the gate is removed whether the swap succeeded or failed (a failed swap
merely records the close without a transaction hash). -/
theorem c1_lot_removal_independent_of_swap_result
    (chainId : Nat) (takeProfitMul stopLossMul price gas : ℚ)
    (pos : Position) (bal : Nat) (swapOk : Bool) :
    isClosed (evalExit chainId takeProfitMul stopLossMul price gas pos bal swapOk)
      = isClosed (evalExit chainId takeProfitMul stopLossMul price gas pos bal true) ∧
    exitSurvivors chainId takeProfitMul stopLossMul price gas [(pos, bal, swapOk)]
      = (if isClosed (evalExit chainId takeProfitMul stopLossMul price gas pos bal swapOk)
         then [] else [(pos, bal, swapOk)]) := by
  constructor
  · simp only [evalExit]
    split
    · rfl
    · split
      · rfl
      · split
        · rfl
        · simp [isClosed]
  · cases h : isClosed (evalExit chainId takeProfitMul stopLossMul price gas pos bal swapOk) <;>
      simp [exitSurvivors, h]

/-- Claim C2 (counterexample): with a native balance of 0 wei — far
below the 0.01 ETH reserve, as `checkGasReserve 0 = false` records —
the entry-time pre-approval path still signs and broadcasts both
approval transactions (ERC20→Permit2 and Permit2→Router) for a fresh
token, because `_enter_token_with_strategy` calls
`ensure_permit2_approval` without ever consulting the gas reserve. -/
theorem c2_entry_preapproval_ignores_gas_reserve :
    checkGasReserve 0 = false ∧
    (entryPreApproval ⟨0, 0, 0⟩ 0 true true).txCount = 2 ∧
    (entryPreApproval ⟨0, 0, 0⟩ 0 true true).ok = true := by
  refine ⟨?_, by decide, by decide⟩
  norm_num [checkGasReserve, GAS_RESERVE_ETH]

/-- Claim C2 (amended): on every swap path routed through
`_execute_swap` — the TP/SL exit sells and both bulk-liquidation swaps,
including the approval transactions those swaps would trigger — a native
balance below `GAS_RESERVE_ETH` means no transaction is signed or
broadcast and the swap reports failure; the entry-time pre-approval
path, by contrast, performs no reserve check at all. -/
theorem c2_execute_swap_respects_gas_reserve
    (bal : Nat) (s : ApprovalState) (now : Nat)
    (erc20TxOk p2TxOk swapTxOk : Bool) (swapGasEth : ℚ)
    (h : checkGasReserve bal = false) :
    (executeSwap bal s now erc20TxOk p2TxOk swapTxOk swapGasEth).txSubmitted = 0 ∧
    (executeSwap bal s now erc20TxOk p2TxOk swapTxOk swapGasEth).txOk = false := by
  simp [executeSwap, h]

/-- Witness for C2's amended theorem at a concrete input: zero balance,
empty allowances, all transactions would confirm. -/
theorem c2_execute_swap_respects_gas_reserve_witness :
    checkGasReserve 0 = false ∧
    (executeSwap 0 ⟨0, 0, 0⟩ 0 true true true 1).txSubmitted = 0 ∧
    (executeSwap 0 ⟨0, 0, 0⟩ 0 true true true 1).txOk = false := by
  have h0 : checkGasReserve 0 = false := by
    norm_num [checkGasReserve, GAS_RESERVE_ETH]
  exact ⟨h0, c2_execute_swap_respects_gas_reserve 0 ⟨0, 0, 0⟩ 0 true true true 1 h0⟩

/-- Claim C3 (counterexample): a TP/SL exit on a WETH-quoted pool
(token address 7, WETH 8, USDC 9, full balance 100 sold, fee tier 3000)
whose token→WETH swap confirms and whose WETH balance reads back 50
performs a second swap WETH→USDC of the entire WETH balance at fee 500 —
the proceeds ARE forwarded to the stable asset within the same exit,
contradicting the claim. -/
theorem c3_weth_exit_forwards_to_usdc :
    exitSellSwaps "WETH" 7 8 9 100 100 3000 true 50
      = [⟨7, 8, 100, 3000⟩, ⟨8, 9, 50, 500⟩] := by
  decide

/-- Claim C3 (amended): for a WETH-quoted pool with a positive raw
balance, the exit first swaps `min(raw balance, recorded amount)` of the
token into WETH at the pool's fee tier, and — exactly when that swap
confirmed and the WETH balance read back positive — follows it with a
swap of the entire WETH balance into USDC at fee tier 500 as part of the
same exit. -/
theorem c3_weth_exit_swap_sequence
    (tokenAddr wethAddr usdcAddr rawBal posAmountRaw feeTier wethRawAfter : Nat)
    (firstSwapOk : Bool) (h : rawBal ≠ 0) :
    exitSellSwaps "WETH" tokenAddr wethAddr usdcAddr rawBal posAmountRaw feeTier
        firstSwapOk wethRawAfter
      = ⟨tokenAddr, wethAddr, min rawBal posAmountRaw, feeTier⟩ ::
        (if firstSwapOk && decide (0 < wethRawAfter) then
          [⟨wethAddr, usdcAddr, wethRawAfter, 500⟩]
         else []) := by
  simp only [exitSellSwaps, if_neg h]
  simp only [if_true]
  split <;> rfl

/-- Witness for C3's amended theorem at a concrete input: raw balance 40
capped at the recorded amount 30, failed first swap, so a single swap. -/
theorem c3_weth_exit_swap_sequence_witness :
    exitSellSwaps "WETH" 21 22 23 40 30 3000 false 0 = [⟨21, 22, 30, 3000⟩] := by
  have h := c3_weth_exit_swap_sequence 21 22 23 40 30 3000 0 false (by decide)
  simpa using h

/-- Claim C4 (confirmed): for every distinct token pair in the encoder's
domain (addresses below `2^160`, amounts below `2^128`, fee below
`2^24`), the encoded pool key has `currency0 < currency1` by numeric
address value, the `zeroForOne` flag word is 1 exactly when the input
token is `currency0`, and ABI-decoding the three produced action
payloads with the documented struct layouts reproduces the supplied
`amount_in`, `min_amount_out` and direction flag exactly. -/
theorem c4_encode_roundtrip
    (tokenIn tokenOut amountIn minAmountOut feeTier : Nat)
    (hne : tokenIn ≠ tokenOut)
    (hin : tokenIn < 2 ^ 160) (hout : tokenOut < 2 ^ 160)
    (hai : amountIn < 2 ^ 128) (hmo : minAmountOut < 2 ^ 128)
    (hfee : feeTier < 2 ^ 24) :
    ((encodeV4Swap tokenIn tokenOut amountIn minAmountOut feeTier none none).swapParams[0]?
        = some (min tokenIn tokenOut) ∧
     (encodeV4Swap tokenIn tokenOut amountIn minAmountOut feeTier none none).swapParams[1]?
        = some (max tokenIn tokenOut) ∧
     min tokenIn tokenOut < max tokenIn tokenOut) ∧
    ((encodeV4Swap tokenIn tokenOut amountIn minAmountOut feeTier none none).swapParams[5]?
        = some 1 ↔
     (encodeV4Swap tokenIn tokenOut amountIn minAmountOut feeTier none none).swapParams[0]?
        = some tokenIn) ∧
    decodeExactInputSingleWords
        (encodeV4Swap tokenIn tokenOut amountIn minAmountOut feeTier none none).swapParams
      = some (⟨min tokenIn tokenOut, max tokenIn tokenOut, feeTier,
               tickSpacingMapEncode feeTier, 0⟩,
              decide (tokenIn < tokenOut), amountIn, minAmountOut) ∧
    decodeCurrencyAmountWords
        (encodeV4Swap tokenIn tokenOut amountIn minAmountOut feeTier none none).settleParams
      = some (tokenIn, amountIn) ∧
    decodeCurrencyAmountWords
        (encodeV4Swap tokenIn tokenOut amountIn minAmountOut feeTier none none).takeParams
      = some (tokenOut, minAmountOut) := by
  rcases Nat.lt_or_ge tokenIn tokenOut with hlt | hge
  · simp [encodeV4Swap, decodeExactInputSingleWords, decodeCurrencyAmountWords,
      hlt, Nat.min_eq_left hlt.le, Nat.max_eq_right hlt.le]
  · have hgt : tokenOut < tokenIn := Nat.lt_of_le_of_ne hge (Ne.symm hne)
    simp [encodeV4Swap, decodeExactInputSingleWords, decodeCurrencyAmountWords,
      Nat.not_lt.mpr hge, Nat.min_eq_right hgt.le, Nat.max_eq_left hgt.le,
      hgt, Ne.symm hne]

/-- Witness for C4's theorem at a concrete input: token 200 sold into
token 100 (descending addresses, so `zeroForOne` is false), amount 5000,
minimum out 4000, fee tier 10000. -/
theorem c4_encode_roundtrip_witness :
    ((encodeV4Swap 200 100 5000 4000 10000 none none).swapParams[0]? = some 100 ∧
     (encodeV4Swap 200 100 5000 4000 10000 none none).swapParams[1]? = some 200 ∧
     (100 : Nat) < 200) ∧
    ((encodeV4Swap 200 100 5000 4000 10000 none none).swapParams[5]? = some 1 ↔
     (encodeV4Swap 200 100 5000 4000 10000 none none).swapParams[0]? = some 200) ∧
    decodeExactInputSingleWords (encodeV4Swap 200 100 5000 4000 10000 none none).swapParams
      = some (⟨100, 200, 10000, 200, 0⟩, false, 5000, 4000) ∧
    decodeCurrencyAmountWords (encodeV4Swap 200 100 5000 4000 10000 none none).settleParams
      = some (200, 5000) ∧
    decodeCurrencyAmountWords (encodeV4Swap 200 100 5000 4000 10000 none none).takeParams
      = some (100, 4000) := by
  have h := c4_encode_roundtrip 200 100 5000 4000 10000 (by decide) (by decide)
    (by decide) (by decide) (by decide) (by decide)
  simpa using h

/-- Claim C5 (confirmed): on a non-testnet chain, an exit whose
take-profit trigger fired and whose gross unrealized profit
`(price - entry) * amount` is at most the estimated exit gas in USD is
skipped for the cycle with the lot kept in the position list, while an
exit whose stop-loss trigger fired (and whose take-profit trigger did
not) is never skipped by the gas gate and always proceeds to the
sell-execution branch. -/
theorem c5_tp_gas_gate_sl_ungated
    (chainId : Nat) (takeProfitMul stopLossMul price gas entry amt tp sl : ℚ)
    (bal : Nat) (swapOk : Bool)
    (hchain : TESTNET_CHAINS.contains chainId = false) (hentry : 0 < entry) :
    (tp ≤ price → (price - entry) * amt ≤ gas →
      evalExit chainId takeProfitMul stopLossMul price gas
          ⟨entry, amt, some tp, some sl⟩ bal swapOk = .skippedTP ∧
      exitSurvivors chainId takeProfitMul stopLossMul price gas
          [(⟨entry, amt, some tp, some sl⟩, bal, swapOk)]
        = [(⟨entry, amt, some tp, some sl⟩, bal, swapOk)]) ∧
    (price ≤ sl → ¬ tp ≤ price →
      evalExit chainId takeProfitMul stopLossMul price gas
          ⟨entry, amt, some tp, some sl⟩ bal swapOk
        = .closed .sl (decide (0 < bal) && swapOk)) := by
  have hmem : chainId ∉ TESTNET_CHAINS := by simpa using hchain
  constructor
  · intro htp hgas
    have hexit : evalExit chainId takeProfitMul stopLossMul price gas
        ⟨entry, amt, some tp, some sl⟩ bal swapOk = .skippedTP := by
      simp [evalExit, hentry.not_le, hchain, hmem, htp, hgas]
    exact ⟨hexit, by simp [exitSurvivors, hexit, isClosed]⟩
  · intro hsl hntp
    simp [evalExit, hentry.not_le, hchain, hmem, hsl, hntp]

/-- Witness for C5's theorem on chain 1 with the default 2% TP/SL
levels around entry price 1: price 1.03 with gross profit 3 under gas 50
is skipped; price 0.97 closes tagged SL despite the same gas figure. -/
theorem c5_tp_gas_gate_sl_ungated_witness :
    evalExit 1 DEFAULT_TAKE_PROFIT DEFAULT_STOP_LOSS (103/100) 50
        ⟨1, 100, some (102/100), some (98/100)⟩ 5 true = .skippedTP ∧
    evalExit 1 DEFAULT_TAKE_PROFIT DEFAULT_STOP_LOSS (97/100) 50
        ⟨1, 100, some (102/100), some (98/100)⟩ 5 true = .closed .sl true := by
  have h1 := (c5_tp_gas_gate_sl_ungated 1 DEFAULT_TAKE_PROFIT DEFAULT_STOP_LOSS
      (103/100) 50 1 100 (102/100) (98/100) 5 true (by decide) (by norm_num)).1
      (by norm_num) (by norm_num)
  have h2 := (c5_tp_gas_gate_sl_ungated 1 DEFAULT_TAKE_PROFIT DEFAULT_STOP_LOSS
      (97/100) 50 1 100 (102/100) (98/100) 5 true (by decide) (by norm_num)).2
      (by norm_num) (by norm_num)
  exact ⟨h1.1, by simpa using h2⟩

/-- Claim C6 (counterexample): a price query whose quote asset is
neither a supported stablecoin nor the wrapped-native asset — here the
string WBTC — with a successful pool read (sqrt price `2^96`, token on
side 0, 18 decimals) returns the number 1 (the price denominated in the
quote asset), not `None`, contradicting the claim that an unsupported
quote type makes the oracle return `None`. -/
theorem c6_unsupported_quote_returns_price :
    getV4PoolPrice (some (2 ^ 96, true)) "WBTC" 18 none = some 1 := by
  simp [getV4PoolPrice, pow10z]
  norm_num

/-- Claim C6 (amended): a failed pool read and a zero square-root price
make the oracle return `None` (and the function is total, so no
exception escapes); but a quote-asset type that is not a supported
stablecoin or the wrapped-native asset does NOT yield `None` — any
successful read with a nonzero square-root price returns a number, the
price left denominated in the unsupported quote asset. -/
theorem c6_price_failure_semantics
    (quoteType : String) (d : Int) (ethPrice : Option ℚ)
    (s : Nat) (tokenIs0 : Bool) (hs : s ≠ 0)
    (hq : ¬ (quoteType = "USDC" ∨ quoteType = "USDT" ∨ quoteType = "DAI" ∨
             quoteType = "WETH" ∨ quoteType = "ETH")) :
    getV4PoolPrice none quoteType d ethPrice = none ∧
    getV4PoolPrice (some (0, tokenIs0)) quoteType d ethPrice = none ∧
    (getV4PoolPrice (some (s, tokenIs0)) quoteType d ethPrice).isSome = true := by
  push_neg at hq
  obtain ⟨h1, h2, h3, h4, h5⟩ := hq
  refine ⟨rfl, by simp [getV4PoolPrice], ?_⟩
  have hpr : (0 : ℚ) < ((s : ℚ) / 2 ^ 96) ^ 2 := by
    have hs0 : (0 : ℚ) < (s : ℚ) := by exact_mod_cast Nat.pos_of_ne_zero hs
    positivity
  have hph : ∀ z : Int, (0 : ℚ) < ((s : ℚ) / 2 ^ 96) ^ 2 * pow10z z :=
    fun z => mul_pos hpr (pow10z_pos z)
  cases tokenIs0 <;>
    simp [getV4PoolPrice, hs, h1, h2, h3, h4, h5, not_le.mpr (hph _), (hph _).le]

/-- Witness for C6's amended theorem at the concrete unsupported quote
type WBTC with sqrt price `2^96` on side 1. -/
theorem c6_price_failure_semantics_witness :
    getV4PoolPrice none "WBTC" 18 none = none ∧
    getV4PoolPrice (some (0, false)) "WBTC" 18 none = none ∧
    (getV4PoolPrice (some (2 ^ 96, false)) "WBTC" 18 none).isSome = true := by
  exact c6_price_failure_semantics "WBTC" 18 none (2 ^ 96) false
    (by positivity) (by decide)

/-- Claim C7 (counterexample): with ERC20 allowance and Permit2 amount
exactly at the `2^128` high-water mark and the Permit2 expiration at
`4600` — one hour after a first call at time `1000` — the first call
returns `true` with zero transactions and an unchanged state, yet a
second call with that same state one second later submits a transaction
(the expiration has entered the one-hour renewal window), contradicting
the claim that the second call submits zero transactions. -/
theorem c7_second_call_near_expiry_resubmits :
    ensurePermit2Approval ⟨2 ^ 128, 2 ^ 128, 4600⟩ 1000 true true
      = ⟨true, 0, ⟨2 ^ 128, 2 ^ 128, 4600⟩⟩ ∧
    (ensurePermit2Approval ⟨2 ^ 128, 2 ^ 128, 4600⟩ 1001 true true).txCount = 1 := by
  exact ⟨by decide, by decide⟩

/-- Claim C7 (amended): if `ensure_permit2_approval` returns true, then
a second call on the unchanged resulting allowance state submits zero
transactions and returns true, provided the second call happens at a
time at which the stored Permit2 expiration is still at least 3600
seconds away (within one hour of expiry the second call re-submits the
Permit2 approval instead). -/
theorem c7_idempotent_before_expiry_window
    (s : ApprovalState) (now : Nat) (e1 p1 e2 p2 : Bool) (t2 : Nat)
    (hok : (ensurePermit2Approval s now e1 p1).ok = true)
    (hexp : t2 + 3600 ≤ (ensurePermit2Approval s now e1 p1).state.p2Expiration) :
    (ensurePermit2Approval (ensurePermit2Approval s now e1 p1).state t2 e2 p2).txCount
      = 0 ∧
    (ensurePermit2Approval (ensurePermit2Approval s now e1 p1).state t2 e2 p2).ok
      = true := by
  obtain ⟨ha, hb⟩ := ensurePermit2Approval_ok_state s now e1 p1 hok
  have hcond : ¬ ((ensurePermit2Approval s now e1 p1).state.p2Amount < 2 ^ 128 ∨
      (ensurePermit2Approval s now e1 p1).state.p2Expiration < t2 + 3600) := by
    push_neg
    exact ⟨hb, hexp⟩
  rw [ensurePermit2Approval, if_neg (Nat.not_lt.mpr ha), permit2Step, if_neg hcond]
  exact ⟨rfl, rfl⟩

/-- Witness for C7's amended theorem: fresh state at time 1000 (both
approvals submitted and confirmed), second call at time 1001, well
inside the 30-day expiration the first call installed. -/
theorem c7_idempotent_before_expiry_window_witness :
    (ensurePermit2Approval (ensurePermit2Approval ⟨0, 0, 0⟩ 1000 true true).state
        1001 true true).txCount = 0 ∧
    (ensurePermit2Approval (ensurePermit2Approval ⟨0, 0, 0⟩ 1000 true true).state
        1001 true true).ok = true := by
  exact c7_idempotent_before_expiry_window ⟨0, 0, 0⟩ 1000 true true true true 1001
    (by decide) (by decide)

/-- Claim C8 (confirmed): for every fee tier, both the swap encoder
(`_encode_v4_swap`, called without explicit tick-spacing or hook
arguments, as every call in the repository does) and the pool-key
derivation of the pricing path (`_get_v4_pool_price`) compute tick
spacing by the fixed lookup 100→1, 500→10, 3000→60, 10000→200 with 60
for any other tier, and both always use the zero address as the hook
address. -/
theorem c8_tick_spacing_and_hooks
    (feeTier tokenIn tokenOut amountIn minAmountOut tokenAddr quoteAddr : Nat) :
    tickSpacingMapEncode feeTier = specTickSpacing feeTier ∧
    tickSpacingMapPrice feeTier = specTickSpacing feeTier ∧
    (encodeV4Swap tokenIn tokenOut amountIn minAmountOut feeTier none none).swapParams[3]?
      = some (specTickSpacing feeTier) ∧
    (encodeV4Swap tokenIn tokenOut amountIn minAmountOut feeTier none none).swapParams[4]?
      = some 0 ∧
    (pricingPoolKey tokenAddr quoteAddr feeTier).1.tickSpacing = specTickSpacing feeTier ∧
    (pricingPoolKey tokenAddr quoteAddr feeTier).1.hooks = 0 := by
  refine ⟨rfl, rfl, rfl, rfl, ?_, ?_⟩ <;>
    · unfold pricingPoolKey
      split <;> rfl

/-- Claim C9 (confirmed): when a lot's current price satisfies both the
take-profit condition (price at or above the TP trigger) and the
stop-loss condition (price at or below the SL trigger) in the same
cycle — possible when the stored SL trigger is not below the TP
trigger — the exit is tagged TP, and on a non-testnet chain it is
therefore subject to the take-profit gas-profitability gate instead of
executing unconditionally as a stop-loss would. -/
theorem c9_both_triggers_tag_tp
    (chainId : Nat) (takeProfitMul stopLossMul price gas entry amt tp sl : ℚ)
    (bal : Nat) (swapOk : Bool)
    (hchain : TESTNET_CHAINS.contains chainId = false)
    (hentry : 0 < entry) (htp : tp ≤ price) (hsl : price ≤ sl) :
    evalExit chainId takeProfitMul stopLossMul price gas
        ⟨entry, amt, some tp, some sl⟩ bal swapOk
      = (if (price - entry) * amt ≤ gas then .skippedTP
         else .closed .tp (decide (0 < bal) && swapOk)) := by
  have hmem : chainId ∉ TESTNET_CHAINS := by simpa using hchain
  by_cases hgas : (price - entry) * amt ≤ gas <;>
    simp [evalExit, hentry.not_le, hchain, hmem, htp, hsl, hgas]

/-- Witness for C9's theorem on chain 1: entry 1, triggers TP 1 and
SL 2 (SL not below TP), price 1 satisfying both.  With zero gross
profit against gas 0 the exit is deferred by the TP gate; with price 2
(gross 10 over gas 0) it closes tagged TP. -/
theorem c9_both_triggers_tag_tp_witness :
    evalExit 1 DEFAULT_TAKE_PROFIT DEFAULT_STOP_LOSS 1 0
        ⟨1, 10, some 1, some 2⟩ 3 true = .skippedTP ∧
    evalExit 1 DEFAULT_TAKE_PROFIT DEFAULT_STOP_LOSS 2 0
        ⟨1, 10, some 2, some 3⟩ 3 true = .closed .tp true := by
  have h1 := c9_both_triggers_tag_tp 1 DEFAULT_TAKE_PROFIT DEFAULT_STOP_LOSS 1 0
    1 10 1 2 3 true (by decide) (by norm_num) (by norm_num) (by norm_num)
  have h2 := c9_both_triggers_tag_tp 1 DEFAULT_TAKE_PROFIT DEFAULT_STOP_LOSS 2 0
    1 10 2 3 3 true (by decide) (by norm_num) (by norm_num) (by norm_num)
  constructor
  · rw [h1]
    norm_num
  · rw [h2]
    norm_num

/-- Claim C10 (confirmed): for every initial position map, realized-P&L
accumulator and trade count, a completed run of `sell_all_to_usdc` ends
with the position map empty, the state file rewritten and the sell-all
flag cleared — regardless of lots whose key was malformed, whose chain
had no connected context, whose pool was missing, whose balance was
dust, or whose liquidation swap failed or was refused by the
gas-reserve guard inside `_execute_swap` (all of which only affect the
per-entry bookkeeping fold, never the final clearing). -/
theorem c10_sell_all_clears_state
    (ethPrice : ℚ) (entries : List LiqEntry) (pnl0 : ℚ) (tradeCount0 : Nat) :
    (sellAllToUsdc ethPrice entries pnl0 tradeCount0).positions = [] ∧
    (sellAllToUsdc ethPrice entries pnl0 tradeCount0).stateSaved = true ∧
    (sellAllToUsdc ethPrice entries pnl0 tradeCount0).sellAllFlag = false :=
  ⟨rfl, rfl, rfl⟩

end Trader
